import Mathlib

/-!
Verification development for the Smart Water Controller irrigation engine
(custom_components/smart_water_controller).  Python floats are modelled as
exact rationals (ℚ), Python ints as ℤ/ℕ, dictionaries as association lists,
and the side effects of the coordinator (service calls, snapshot saves,
scheduled callbacks) as an explicit effect list.  Each definition is a direct
shallow embedding of the function of the same name in the source.
-/

namespace SmartWater

/-! ## Python value helpers -/

/-- Python `str.strip()`: drop leading and trailing whitespace. -/
def pyStrip (s : String) : String :=
  ⟨((s.data.dropWhile Char.isWhitespace).reverse.dropWhile Char.isWhitespace).reverse⟩

def splitOnCharAux (sep : Char) : List Char → List Char → List String
  | [], acc => [⟨acc.reverse⟩]
  | c :: cs, acc =>
    if c = sep then ⟨acc.reverse⟩ :: splitOnCharAux sep cs []
    else splitOnCharAux sep cs (c :: acc)

/-- Python `s.split(sep)` for a one-character separator. -/
def splitOnChar (sep : Char) (s : String) : List String := splitOnCharAux sep s.data []

/-- Numeric value of a digit string. -/
def digitsVal (cs : List Char) : ℕ := cs.foldl (fun acc c => acc * 10 + (c.toNat - 48)) 0

/-- Python `s.isdigit()` on ASCII digits. -/
def isDigits (s : String) : Bool := !s.data.isEmpty && s.data.all Char.isDigit

def pyStartsWith (s : String) (c : Char) : Bool :=
  match s.data with
  | [] => false
  | d :: _ => d = c

def pyDrop1 (s : String) : String := ⟨s.data.drop 1⟩

def pyToLower (s : String) : String := ⟨s.data.map Char.toLower⟩

def joinWithDot : List String → String
  | [] => ""
  | [s] => s
  | s :: rest => s ++ "." ++ joinWithDot rest

/-- Embedding of Python `round(x, 2)` on the exact rational value: round
`100 * x` to the nearest integer and divide back.  (CPython rounds the binary
double half-to-even; on the exact rational value modelled here we use the
standard `round`, which only differs on exact half-way points.) -/
def round2 (q : ℚ) : ℚ := (round (q * 100) : ℤ) / 100

/-- Embedding of Python `int(x)` on a float: truncation toward zero. -/
def pyTrunc (q : ℚ) : ℤ := if 0 ≤ q then ⌊q⌋ else ⌈q⌉

/-- Parse a 1–2 digit numeric field, as accepted by `strptime` for each of
the `%H`/`%M`/`%S` directives. -/
def parseField2 (s : String) : Option ℕ :=
  if 0 < s.data.length ∧ s.data.length ≤ 2 ∧ s.data.all Char.isDigit then
    some (digitsVal s.data)
  else none

/-- Embedding of `util.parse_time_string`: accepts `HH:MM:SS`, `HH:MM`
(1–2 digit fields) or a bare digit string `H` with `H ≤ 23`, after stripping
whitespace.  The result is the time of day in seconds; `none` is the
`ValueError` path. -/
def parse_time_string (value : String) : Option ℕ :=
  let v := pyStrip value
  match splitOnChar ':' v with
  | [h, m, s] =>
    match parseField2 h, parseField2 m, parseField2 s with
    | some hh, some mm, some ss =>
      if hh ≤ 23 ∧ mm ≤ 59 ∧ ss ≤ 59 then some (hh * 3600 + mm * 60 + ss) else none
    | _, _, _ => none
  | [h, m] =>
    match parseField2 h, parseField2 m with
    | some hh, some mm => if hh ≤ 23 ∧ mm ≤ 59 then some (hh * 3600 + mm * 60) else none
    | _, _ => none
  | [h] =>
    if isDigits h then
      if digitsVal h.data ≤ 23 then some (digitsVal h.data * 3600) else none
    else none
  | _ => none

/-! ## Calendar (proleptic Gregorian, as used by `datetime.date`) -/

def isLeapYear (y : ℕ) : Bool := y % 4 = 0 && (y % 100 ≠ 0 || y % 400 = 0)

def daysInMonth (y m : ℕ) : ℕ :=
  if m = 2 then (if isLeapYear y then 29 else 28)
  else if m = 4 ∨ m = 6 ∨ m = 9 ∨ m = 11 then 30 else 31

/-- A `datetime.date`: year 1–9999, month 1–12, day 1–31. -/
structure Date where
  year : ℕ
  month : ℕ
  day : ℕ
deriving DecidableEq, Repr

def nextDay (d : Date) : Date :=
  if d.day < daysInMonth d.year d.month then ⟨d.year, d.month, d.day + 1⟩
  else if d.month < 12 then ⟨d.year, d.month + 1, 1⟩
  else ⟨d.year + 1, 1, 1⟩

/-- `d + timedelta(days = n)`. -/
def addDays (d : Date) : ℕ → Date
  | 0 => d
  | n + 1 => addDays (nextDay d) n

/-- Day number of a civil date (days since 1970-01-01); the standard
`days_from_civil` computation, which is what `date` subtraction measures. -/
def daysFromCivil (d : Date) : ℤ :=
  let y : ℕ := if d.month ≤ 2 then d.year - 1 else d.year
  let era : ℕ := y / 400
  let yoe : ℕ := y - era * 400
  let mp : ℕ := if 2 < d.month then d.month - 3 else d.month + 9
  let doy : ℕ := (153 * mp + 2) / 5 + d.day - 1
  let doe : ℕ := yoe * 365 + yoe / 4 - yoe / 100 + doy
  (era : ℤ) * 146097 + (doe : ℤ) - 719468

/-- Python's binary `max` of two datetimes, compared here at day granularity
(the engine only ever uses the `.date()` of these values): returns the first
argument when the two are equal, like `max(a, b)`. -/
def maxDate (a b : Date) : Date := if daysFromCivil b ≤ daysFromCivil a then a else b

/-- `datetime.combine(d1, t1) < datetime.combine(d2, t2)` with times in
seconds of day. -/
def dtLt (d1 : Date) (t1 : ℕ) (d2 : Date) (t2 : ℕ) : Bool :=
  decide (daysFromCivil d1 < daysFromCivil d2) ||
    (decide (daysFromCivil d1 = daysFromCivil d2) && decide (t1 < t2))

/-! ## Schedule data model -/

/-- One entry of the 12-month schedule: `interval_days`, the `hours` list of
time-of-day strings, and the `stations` mapping.  The Python dict keys
`station_<id>_minutes` are modelled as the station id of each association
pair. -/
structure MonthConfig where
  intervalDays : ℤ
  hours : List String
  stationMinutes : List (ℕ × ℤ)
deriving DecidableEq, Repr

/-- `month_config["stations"].get(f"station_{id}_minutes", 0)`. -/
def stationMinutesOf (mc : MonthConfig) (stationId : ℕ) : ℤ :=
  (mc.stationMinutes.lookup stationId).getD 0

/-- Embedding of `coordinator.calculate_sprinkle_target_amounts`.  A `none`
schedule entry models a falsy `month_config`.  The per-station arrays
(`water_flow_rate`, `station_areas`) are read with default 0 (the coordinator
keeps them at length `num_stations`). -/
def calculate_sprinkle_target_amounts
    (numStations : ℕ) (schedule : List (Option MonthConfig))
    (today lastRain lastSprinkle : Date)
    (waterFlowRate stationAreas : List ℚ) : List ℚ :=
  let zeros := List.replicate numStations (0 : ℚ)
  match schedule.getD (today.month - 1) none with
  | none => zeros
  | some mc =>
    let wateringHours := mc.hours.filter (fun h => h ≠ "")
    let lastEventDate := maxDate lastRain lastSprinkle
    let daysSinceLastEvent := daysFromCivil today - daysFromCivil lastEventDate
    if daysSinceLastEvent < mc.intervalDays then zeros
    else if wateringHours = [] then zeros
    else
      let occurrences : ℤ := wateringHours.length
      (List.range numStations).map (fun i =>
        let minutes := stationMinutesOf mc (i + 1)
        let totalMinutes := minutes * occurrences
        if 0 < totalMinutes then
          let flow := waterFlowRate.getD i 0
          let area0 := stationAreas.getD i 0
          let area := if area0 = 0 then 1 else area0
          round2 ((flow / area) * (totalMinutes : ℚ))
        else 0)

/-- Per-station duration computation of `coordinator.run_watering_cycle`:
`daily_remaining_mm = max(0, target - (applied + forecast))`,
`per_run_target_mm = daily_remaining_mm / occurrences_left`,
`mm_per_minute = flow_rate / (area or 1)`, and
`minutes_needed = int(per_run_target_mm / mm_per_minute + 0.999)`. -/
def watering_minutes (targetMm appliedMm forecastRain : ℚ) (occurrencesLeft : ℕ)
    (flowRate area0 : ℚ) : ℤ :=
  let dailyRemainingMm := max 0 (targetMm - (appliedMm + forecastRain))
  let perRunTargetMm := dailyRemainingMm / (occurrencesLeft : ℚ)
  let area := if area0 = 0 then 1 else area0
  let mmPerMinute := flowRate / area
  pyTrunc (perRunTargetMm / mmPerMinute + 999 / 1000)

/-! ## Weather providers

Forecast blocks carry the parsed pieces of the `dt_txt` local timestamp
string `"YYYY-MM-DD HH:00:00"`: the date part (as a day number) and the block
start hour, together with `pop` and `rain["3h"]`. -/

structure ForecastBlock where
  date : ℤ
  hour : ℕ
  rain3h : ℚ
  pop : ℚ
deriving DecidableEq, Repr

/-- Embedding of `get_total_rain_forecast_for_today` — the summation loop is
identical in `weather_providers/owm.py` and `weather_providers/pirateweather.py`:
skip blocks of another date, skip blocks already ended, prorate the block in
progress by its remaining minutes out of 180, and accumulate the rest in
full.  `currentTime` is `now.hour * 60 + now.minute`. -/
def get_total_rain_forecast_for_today
    (forecast : List ForecastBlock) (today : ℤ) (currentTime : ℕ) : ℚ :=
  match forecast with
  | [] => 0
  | item :: rest =>
    let restSum := get_total_rain_forecast_for_today rest today currentTime
    if item.date ≠ today then restSum
    else
      let forecastStartMinute := item.hour * 60
      let forecastEndMinute := forecastStartMinute + 180
      if forecastEndMinute ≤ currentTime then restSum
      else if forecastStartMinute ≤ currentTime ∧ currentTime < forecastEndMinute then
        ((forecastEndMinute - currentTime : ℕ) : ℚ) / 180 * item.rain3h + restSum
      else item.rain3h + restSum

/-- The contribution of one block according to the specification: blocks of
today that have not yet ended count, the one containing the current time
scaled by the remaining fraction of its 180-minute window. -/
def blockContribution (today : ℤ) (currentTime : ℕ) (b : ForecastBlock) : ℚ :=
  if b.date = today ∧ currentTime < b.hour * 60 + 180 then
    if b.hour * 60 ≤ currentTime then
      ((b.hour * 60 + 180 - currentTime : ℕ) : ℚ) / 180 * b.rain3h
    else b.rain3h
  else 0

/-- `[h for h in range(0, 21, 3)]` in `owm.py` — note 21 is not generated. -/
def owmBlockHours : List ℕ := [0, 3, 6, 9, 12, 15, 18]

/-- `block_starts = [0, 3, 6, 9, 12, 15, 18, 21]` in `pirateweather.py`. -/
def pirateBlockStarts : List ℕ := [0, 3, 6, 9, 12, 15, 18, 21]

/-- `max([h for h in block_hours if h <= current_hour])`; 0 is always in the
list, so the fold with base 0 is that maximum. -/
def currentBlockOf (blockHours : List ℕ) (currentHour : ℕ) : ℕ :=
  (blockHours.filter (fun h => h ≤ currentHour)).foldr max 0

/-- Embedding of `owm.py will_it_rain` applied to the provider's forecast
list: keep blocks dated today whose hour is at or above the current block
boundary, and ask whether any has `pop > 0.50`. -/
def owm_will_it_rain (forecast : List ForecastBlock) (today : ℤ) (currentHour : ℕ) : Bool :=
  let currentBlock := currentBlockOf owmBlockHours currentHour
  let relevantForecasts := forecast.filter
    (fun item => decide (item.date = today) && decide (currentBlock ≤ item.hour))
  relevantForecasts.any (fun item => decide ((1 : ℚ) / 2 < item.pop))

/-- One point of PirateWeather's hourly data, already converted to local
time: its local date, minute of the local day, `precipIntensity` and
`precipProbability` (absent values read as 0, as in the source). -/
structure HourlyItem where
  date : ℤ
  minuteOfDay : ℕ
  precipIntensity : ℚ
  precipProbability : ℚ
deriving DecidableEq, Repr

/-- Block construction loop of `pirateweather.py get_forecast`: sum the
intensities and take the running maximum of the probabilities over the hourly
items of today that fall in the 3-hour window. -/
def pirateBuildBlock (hourly : List HourlyItem) (today : ℤ) (startHour : ℕ) : ForecastBlock :=
  let inBlock := hourly.filter (fun h =>
    decide (h.date = today) && decide (startHour * 60 ≤ h.minuteOfDay) &&
      decide (h.minuteOfDay < startHour * 60 + 180))
  { date := today, hour := startHour,
    rain3h := (inBlock.map (·.precipIntensity)).sum,
    pop := (inBlock.map (·.precipProbability)).foldr max 0 }

def insertByHour (b : ForecastBlock) : List ForecastBlock → List ForecastBlock
  | [] => [b]
  | c :: rest => if b.hour ≤ c.hour then b :: c :: rest else c :: insertByHour b rest

/-- `filtered.sort(key=lambda x: x["dt_txt"])`: all blocks share the date, so
sorting on `dt_txt` is sorting on the block hour. -/
def sortByHour : List ForecastBlock → List ForecastBlock
  | [] => []
  | b :: rest => insertByHour b (sortByHour rest)

/-- Embedding of `pirateweather.py get_forecast` (fresh-fetch path): build the
eight blocks of today from the hourly data, keep those from the current block
boundary on, then always re-append today's 00h block when it was filtered
out (`dt_txt.endswith("00:00:00")`), and sort by `dt_txt`. -/
def pirate_get_forecast (hourly : List HourlyItem) (today : ℤ) (currentHour : ℕ) :
    List ForecastBlock :=
  let blocks := pirateBlockStarts.map (pirateBuildBlock hourly today)
  let currentBlock := currentBlockOf pirateBlockStarts currentHour
  let filtered := blocks.filter
    (fun b => decide (b.date = today) && decide (currentBlock ≤ b.hour))
  let withMidnight :=
    match blocks.find? (fun b => decide (b.hour = 0)) with
    | some b00 => if filtered.contains b00 then filtered else filtered ++ [b00]
    | none => filtered
  sortByHour withMidnight

/-- Embedding of `pirateweather.py will_it_rain`: any block of the provider's
forecast list with `pop > 0.50` — with no date or hour restriction. -/
def pirate_will_it_rain (hourly : List HourlyItem) (today : ℤ) (currentHour : ℕ) : Bool :=
  (pirate_get_forecast hourly today currentHour).any
    (fun item => decide ((1 : ℚ) / 2 < item.pop))

/-! ## Action invoker (api.py) -/

/-- A scalar value sent in a service-call payload. -/
inductive Scalar where
  | int (n : ℤ)
  | float (q : ℚ)
  | str (s : String)
deriving DecidableEq, Repr

def parseUnsignedDigits (s : String) : Option ℕ :=
  if isDigits s then some (digitsVal s.data) else none

/-- Mantissa of a Python float literal: `digits`, `digits.`, `.digits` or
`digits.digits`. -/
def parseMantissa (s : String) : Option ℚ :=
  match splitOnChar '.' s with
  | [ip] => (parseUnsignedDigits ip).map (fun n => (n : ℚ))
  | [ip, fp] =>
    if ip = "" ∧ fp = "" then none
    else if (ip = "" ∨ ip.data.all Char.isDigit) ∧ (fp = "" ∨ fp.data.all Char.isDigit) then
      some ((digitsVal ip.data : ℚ) + (digitsVal fp.data : ℚ) / (10 ^ fp.data.length))
    else none
  | _ => none

def parseExponent (s : String) : Option ℤ :=
  if pyStartsWith s '-' then (parseUnsignedDigits (pyDrop1 s)).map (fun n => -(n : ℤ))
  else if pyStartsWith s '+' then (parseUnsignedDigits (pyDrop1 s)).map (fun n => (n : ℤ))
  else (parseUnsignedDigits s).map (fun n => (n : ℤ))

/-- Model of Python `float(v)` on decimal literals: optional sign, mantissa,
optional exponent, surrounding whitespace stripped.  (The special forms
`inf`/`nan` and underscore separators are outside the model.) -/
def parsePyFloat (s : String) : Option ℚ :=
  let t := pyStrip s
  let sign : ℚ := if pyStartsWith t '-' then -1 else 1
  let body := if pyStartsWith t '-' ∨ pyStartsWith t '+' then pyDrop1 t else t
  match splitOnChar 'e' (pyToLower body) with
  | [m] => (parseMantissa m).map (fun q => sign * q)
  | [m, e] =>
    match parseMantissa m, parseExponent e with
    | some mv, some ev =>
      some (sign * mv * (if 0 ≤ ev then ((10 : ℚ) ^ ev.toNat) else ((10 : ℚ) ^ (-ev).toNat)⁻¹))
    | _, _ => none
  | _ => none

/-- Embedding of `api._coerce_scalar`: strip, empty stays the empty string,
digit strings (optionally `-`-signed) become ints, strings accepted by
`float()` become floats, anything else stays a string.  (`isdigit` is
modelled on ASCII digits, where `int()` always succeeds.) -/
def coerce_scalar (value : String) : Scalar :=
  let v := pyStrip value
  if v = "" then .str ""
  else if isDigits v then .int (digitsVal v.data)
  else if pyStartsWith v '-' ∧ isDigits (pyDrop1 v) then
    .int (-(digitsVal (pyDrop1 v).data : ℤ))
  else
    match parsePyFloat v with
    | some q => .float q
    | none => .str v

/-- One configured service parameter: `name`, `type` and the literal `value`
(all read with `or ""` / `or "other"` defaults in the source). -/
structure ServiceParam where
  name : String
  ptype : String
  value : String
deriving DecidableEq, Repr

/-- One configured action: `enabled`, the `domain.service` string, and the
ordered parameter list. -/
structure ActionCfg where
  enabled : Bool
  service : String
  params : List ServiceParam
deriving DecidableEq, Repr

/-- Python dict assignment `payload[name] = v` on an insertion-ordered
association list: replace in place or append. -/
def dictInsert (payload : List (String × Scalar)) (key : String) (v : Scalar) :
    List (String × Scalar) :=
  match payload with
  | [] => [(key, v)]
  | (k, w) :: rest => if k = key then (k, v) :: rest else (k, w) :: dictInsert rest key v

/-- Parameter resolution loop of `api._async_call_configured_service`:
skip unnamed parameters; a non-empty configured literal always wins and is
sent through `_coerce_scalar`; otherwise fill from the runtime context by
type (`time` ← minutes, `station` ← station, `mac_address` ← the controller
MAC, failing when it is unset); otherwise omit the parameter. -/
def buildPayload (controllerMac : String) (station minutes : Option ℤ) :
    List ServiceParam → List (String × Scalar) → Except String (List (String × Scalar))
  | [], payload => .ok payload
  | p :: rest, payload =>
    let name := pyStrip p.name
    if name = "" then buildPayload controllerMac station minutes rest payload
    else
      let ptype := pyStrip (if p.ptype = "" then "other" else p.ptype)
      if pyStrip p.value ≠ "" then
        buildPayload controllerMac station minutes rest
          (dictInsert payload name (coerce_scalar p.value))
      else if ptype = "time" ∧ minutes.isSome then
        buildPayload controllerMac station minutes rest
          (dictInsert payload name (.int (minutes.getD 0)))
      else if ptype = "station" ∧ station.isSome then
        buildPayload controllerMac station minutes rest
          (dictInsert payload name (.int (station.getD 0)))
      else if ptype = "mac_address" then
        if controllerMac = "" then .error "Controller MAC address is not set"
        else buildPayload controllerMac station minutes rest
          (dictInsert payload name (.str controllerMac))
      else buildPayload controllerMac station minutes rest payload

/-- `service_call.split(".", 1)`. -/
def splitService (s : String) : String × String :=
  match splitOnChar '.' s with
  | [] => ("", "")
  | d :: rest => (d, joinWithDot rest)

/-- Embedding of `api._async_call_configured_service` up to the dispatch
point: a missing or falsy action config reads as enabled with no service; a
disabled action or one without a `domain.service` identifier fails before any
call; otherwise the call that would be dispatched is returned as
`(domain, service, payload)`. -/
def call_configured_service (serviceActions : List (String × ActionCfg))
    (controllerMac : String) (action : String) (station minutes : Option ℤ) :
    Except String (String × String × List (String × Scalar)) :=
  let actionCfg := (serviceActions.lookup action).getD ⟨true, "", []⟩
  if ¬ actionCfg.enabled then .error "action disabled"
  else
    let serviceCall := pyStrip actionCfg.service
    if serviceCall = "" ∨ (splitOnChar '.' serviceCall).length < 2 then .error "no valid service"
    else
      match buildPayload controllerMac station minutes actionCfg.params [] with
      | .error e => .error e
      | .ok payload => .ok ((splitService serviceCall).1, (splitService serviceCall).2, payload)

/-! ## Irrigation engine state (coordinator.py) -/

inductive StationState where
  | stopped
  | sprinkling
deriving DecidableEq, Repr

/-- The persisted `active_irrigation` record.  `endAt` is the outcome of
`datetime.fromisoformat` on the stored `end_at` string, as an absolute time
in seconds: `none` models a missing, empty or unparsable value (all three
paths behave identically in the source). -/
structure ActiveIrrigation where
  station : ℤ
  startAt : ℤ
  endAt : Option ℤ
  durationMinutes : ℤ
deriving DecidableEq, Repr

/-- Observable side effects of the engine: switch service calls, configured
remote-action calls, snapshot saves, deferred stop tasks and sensor-refresh
passes. -/
inductive Effect where
  | turnOnSwitch (station : ℤ)
  | turnOffSwitch (station : ℤ)
  | turnOffAllSwitches
  | sprinkleCall (station minutes : ℤ)
  | stopSprinkleCall
  | save
  | scheduleStop (station delaySeconds : ℤ)
  | updateSensors
deriving DecidableEq, Repr

/-- The mutable coordinator state the claims are about.  Timestamps the
engine only ever reads at day granularity (`last_rain`, `last_sprinkle`,
`last_reset`) are kept as dates. -/
structure EngineState where
  stationStates : List StationState
  activeIrrigation : Option ActiveIrrigation
  stopEventSet : Bool
  sprinkleTotalToday : List ℚ
  sprinkleTargetToday : List ℚ
  forecastedSprinkleToday : List ℚ
  totalWaterConsumption : ℚ
  lastSprinkle : Date
  lastRain : Date
  lastReset : Date
  hasRainedToday : Bool
  willRainToday : Bool
  isRainingNow : Bool
  rainTimeToday : ℚ
  rainTotalToday : ℚ
  rainForecastToday : ℚ
  schedule : List (Option MonthConfig)
deriving DecidableEq, Repr

/-- Python list assignment `l[i] = v` with negative-index wrap-around; an
out-of-range index leaves the list unchanged (used where the source guards
the assignment with a bare `try/except`). -/
def pySet {α : Type} (l : List α) (i : ℤ) (v : α) : List α :=
  if 0 ≤ i then l.set i.toNat v
  else if (-i).toNat ≤ l.length then l.set (l.length - (-i).toNat) v else l

/-- Embedding of `coordinator._async_restore_active_irrigation`.  `now` is
the current absolute time in seconds.  For the service control method the
record is simply dropped; for the switch method a stale session (`now ≥
end_at`) is forced off and the snapshot saved, and a live one re-marks the
station Sprinkling and arms a deferred stop for the remaining seconds. -/
def restore_active_irrigation (isSwitch : Bool) (now : ℤ) (s : EngineState) :
    EngineState × List Effect :=
  if ¬ isSwitch then ({ s with activeIrrigation := none }, [])
  else
    match s.activeIrrigation with
    | none => ({ s with activeIrrigation := none }, [])
    | some ai =>
      if ai.station = 0 then ({ s with activeIrrigation := none }, [])
      else
        match ai.endAt with
        | none => ({ s with activeIrrigation := none }, [])
        | some endAt =>
          if endAt ≤ now then
            ({ s with activeIrrigation := none },
             [Effect.turnOffSwitch ai.station, Effect.save])
          else
            let remainingSeconds := endAt - now
            if remainingSeconds ≤ 0 then
              ({ s with activeIrrigation := none }, [Effect.save])
            else
              ({ s with stationStates := pySet s.stationStates (ai.station - 1) .sprinkling },
               [Effect.scheduleStop ai.station remainingSeconds])

/-- Number of completed one-second ticks of the watering wait loop.
`stopAtTick = some k` models the stop event being observed set at the
check before tick `k`; `none` models the stop event never firing. -/
def ticksRun (durationSeconds : ℕ) (stopAtTick : Option ℕ) : ℕ :=
  match stopAtTick with
  | none => durationSeconds
  | some k => min k durationSeconds

/-- Embedding of `coordinator.start_irrigation`.  `apiOk = false` models the
initial action invocation (`turn_on_station_switch` or `sprinkle_station`)
raising `APIConnectionError`; the nested sensor refreshes are recorded as
`updateSensors` effects, their only interaction with the wait loop being the
stop signal already captured by `stopAtTick`. -/
def start_irrigation (isSwitch apiOk : Bool) (nowDate : Date) (now : ℤ)
    (stopAtTick : Option ℕ) (waterFlowRate stationAreas : List ℚ)
    (manualDuration : ℤ) (station : ℕ) (minutes : Option ℤ) (s : EngineState) :
    EngineState × List Effect :=
  let duration := minutes.getD manualDuration
  let s1 := { s with stopEventSet := false }
  if ¬ apiOk then (s1, [])
  else
    let sessionRecord := ActiveIrrigation.mk (station : ℤ) now (some (now + duration * 60)) duration
    let started :=
      if isSwitch then
        ({ s1 with activeIrrigation := some sessionRecord },
         [Effect.turnOnSwitch (station : ℤ), Effect.save,
          Effect.scheduleStop (station : ℤ) (duration * 60)])
      else (s1, [Effect.sprinkleCall (station : ℤ) duration])
    let s3 := { started.1 with
      stationStates := started.1.stationStates.set (station - 1) .sprinkling }
    let totalSeconds := (duration * 60).toNat
    let t := ticksRun totalSeconds stopAtTick
    let flow := waterFlowRate.getD (station - 1) 0
    let area0 := stationAreas.getD (station - 1) 0
    let area := if area0 = 0 then 1 else area0
    let s4 := { s3 with
      totalWaterConsumption := s3.totalWaterConsumption + (t : ℚ) * (flow / 60),
      sprinkleTotalToday := s3.sprinkleTotalToday.set (station - 1)
        (s3.sprinkleTotalToday.getD (station - 1) 0 + (t : ℚ) * ((flow / area) / 60)) }
    let completed := decide (totalSeconds ≤ stopAtTick.getD totalSeconds)
    let s5 :=
      if completed then
        { s4 with stationStates := s4.stationStates.set (station - 1) .stopped }
      else s4
    let closed :=
      if isSwitch then
        ({ s5 with activeIrrigation := none }, [Effect.turnOffSwitch (station : ℤ), Effect.save])
      else (s5, [])
    ({ closed.1 with lastSprinkle := nowDate },
     started.2 ++ [Effect.updateSensors] ++ closed.2 ++ [Effect.updateSensors])

/-- Embedding of `coordinator.stop_irrigation`.  `apiOk = false` models the
global stop invocation (`turn_off_all_station_switches` / `stop_sprinkle`)
raising `APIConnectionError`, on which the function returns at once. -/
def stop_irrigation (isSwitch apiOk : Bool) (s : EngineState) : EngineState × List Effect :=
  if ¬ apiOk then (s, [])
  else
    let callEffect := if isSwitch then [Effect.turnOffAllSwitches] else [Effect.stopSprinkleCall]
    let s1 := { s with stopEventSet := true }
    let cleared :=
      if isSwitch then ({ s1 with activeIrrigation := none }, [Effect.save]) else (s1, [])
    let s3 := { cleared.1 with
      stationStates := cleared.1.stationStates.map (fun _ => StationState.stopped) }
    (s3, callEffect ++ cleared.2 ++ [Effect.updateSensors])

/-- Embedding of `coordinator.reset_rain_sprinkle_indicators`.
`weatherForecast` is `get_total_rain_forecast_for_today()` when a weather
provider is configured, `none` otherwise (read as 0). -/
def reset_rain_sprinkle_indicators (numStations : ℕ) (today : Date)
    (weatherForecast : Option ℚ) (waterFlowRate stationAreas : List ℚ)
    (s : EngineState) : EngineState × List Effect :=
  let forecastToday := weatherForecast.getD 0
  let targets := calculate_sprinkle_target_amounts numStations s.schedule today
    s.lastRain s.lastSprinkle waterFlowRate stationAreas
  ({ s with
      hasRainedToday := false,
      willRainToday := false,
      rainTimeToday := 0,
      rainTotalToday := 0,
      sprinkleTotalToday := List.replicate numStations 0,
      rainForecastToday := forecastToday,
      sprinkleTargetToday := targets,
      forecastedSprinkleToday := targets.map (fun target => max 0 (target - forecastToday)),
      lastReset := today },
   [Effect.save])

/-- The weather readings consumed by one sensor-update pass:
`will_it_rain`, `is_raining`, the `calculate_rain_amount()` increment and
`get_total_rain_forecast_for_today()`. -/
structure WeatherObs where
  willRain : Bool
  isRaining : Bool
  rainAmountPerPoll : ℚ
  forecastRainToday : ℚ
deriving Repr

/-- State-mutating core of `coordinator.async_update_all_sensors`: the
polling daily reset (after 00:05 local when `last_reset` is another day),
the weather flag refresh, rain accumulation with the stop-on-rain rule, and
the forecast total.  The read-only display record list and the
next-schedule display value are not part of the engine state. -/
def update_all_sensors (isSwitch stopApiOk sprinkleWithRain : Bool) (numStations : ℕ)
    (today : Date) (nowSec : ℕ) (pollInterval : ℚ) (weather : Option WeatherObs)
    (waterFlowRate stationAreas : List ℚ) (s : EngineState) : EngineState × List Effect :=
  let afterReset :=
    if 300 < nowSec ∧ s.lastReset ≠ today then
      reset_rain_sprinkle_indicators numStations today
        (weather.map (·.forecastRainToday)) waterFlowRate stationAreas s
    else (s, [])
  let s2 :=
    match weather with
    | some w => { afterReset.1 with willRainToday := w.willRain, isRainingNow := w.isRaining }
    | none => { afterReset.1 with willRainToday := false, isRainingNow := false }
  let afterRain :=
    if s2.isRainingNow then
      let sa := { s2 with
        hasRainedToday := true,
        lastRain := today,
        rainTimeToday := s2.rainTimeToday + pollInterval / 60,
        rainTotalToday := s2.rainTotalToday + (weather.map (·.rainAmountPerPoll)).getD 0 }
      if ¬ sprinkleWithRain ∧ sa.stationStates.contains StationState.sprinkling then
        stop_irrigation isSwitch stopApiOk sa
      else (sa, [])
    else (s2, [])
  let s4 :=
    match weather with
    | some w => { afterRain.1 with rainForecastToday := w.forecastRainToday + afterRain.1.rainTotalToday }
    | none => { afterRain.1 with rainForecastToday := afterRain.1.rainTotalToday }
  (s4, afterReset.2 ++ afterRain.2 ++ [Effect.save])

/-- Embedding of `coordinator.async_set_schedule`. -/
def async_set_schedule (newSchedule : List (Option MonthConfig)) (s : EngineState) :
    EngineState × List Effect :=
  ({ s with schedule := newSchedule }, [Effect.save, Effect.updateSensors])

/-- Per-station body of the `run_watering_cycle` loop: stations with
non-positive scheduled minutes are skipped, a met daily budget
(`daily_remaining_mm ≤ 0`) is skipped, and otherwise a session is started
for `minutes_needed` whenever it is positive. -/
def watering_cycle_step (isSwitch : Bool) (apiOkF : ℕ → Bool) (stopAtTickF : ℕ → Option ℕ)
    (nowDate : Date) (now : ℤ) (occurrencesLeft : ℕ) (waterFlowRate stationAreas : List ℚ)
    (manualDuration : ℤ) (acc : EngineState × List Effect) (entry : ℕ × ℤ) :
    EngineState × List Effect :=
  let stationId := entry.1
  let scheduledMinutes := entry.2
  if scheduledMinutes ≤ 0 then acc
  else
    let targetMm := acc.1.sprinkleTargetToday.getD (stationId - 1) 0
    let appliedMm := acc.1.sprinkleTotalToday.getD (stationId - 1) 0
    let forecastRain := acc.1.rainForecastToday
    let dailyRemainingMm := max 0 (targetMm - (appliedMm + forecastRain))
    if dailyRemainingMm ≤ 0 then acc
    else
      let minutesNeeded := watering_minutes targetMm appliedMm forecastRain
        occurrencesLeft (waterFlowRate.getD (stationId - 1) 0)
        (stationAreas.getD (stationId - 1) 0)
      if 0 < minutesNeeded then
        let stepped := start_irrigation isSwitch (apiOkF stationId) nowDate now
          (stopAtTickF stationId) waterFlowRate stationAreas manualDuration
          stationId (some minutesNeeded) acc.1
        (stepped.1, acc.2 ++ stepped.2)
      else acc

/-- Embedding of `coordinator.run_watering_cycle`: the soil-moisture gate
(`none` models a missing, unavailable or unparsable reading — fail open),
the month config lookup, the remaining-occurrence count (comparing only
hour and minute, minimum 1), and the per-station loop that starts an
irrigation session for every station with positive scheduled minutes and
positive remaining daily budget.  A schedule hour that `parse_time_string`
rejects makes the Python `sorted(..., key=parse_time_string)` call raise,
aborting the cycle before any mutation. -/
def run_watering_cycle (isSwitch : Bool) (apiOkF : ℕ → Bool) (stopAtTickF : ℕ → Option ℕ)
    (nowDate : Date) (now : ℤ) (nowHM : ℕ) (soilMoisture : Option ℚ) (threshold : ℚ)
    (waterFlowRate stationAreas : List ℚ) (manualDuration : ℤ) (s : EngineState) :
    EngineState × List Effect :=
  if (match soilMoisture with | some m => decide (threshold ≤ m) | none => false) then (s, [])
  else
    match s.schedule.getD (nowDate.month - 1) none with
    | none => (s, [])
    | some mc =>
      let nonEmptyHours := mc.hours.filter (fun h => h ≠ "")
      if nonEmptyHours.any (fun h => (parse_time_string h).isNone) then (s, [])
      else
        let parsedHours := nonEmptyHours.filterMap parse_time_string
        let remainingHours := parsedHours.filter (fun t => nowHM ≤ t / 60)
        let occurrencesLeft := max 1 remainingHours.length
        mc.stationMinutes.foldl
          (watering_cycle_step isSwitch apiOkF stopAtTickF nowDate now occurrencesLeft
            waterFlowRate stationAreas manualDuration) (s, [])

/-! ## Next watering date (coordinator.get_next_watering_date) -/

/-- The month-scan loop: starting at the current month index and wrapping,
return the first schedule entry that is truthy and has a non-empty `hours`
list.  (A missing entry reads as falsy; the coordinator keeps the schedule
at length 12.) -/
def findMonthWithHours (schedule : List (Option MonthConfig)) (currentMonthIndex : ℕ) :
    Option MonthConfig :=
  (List.range 12).findSome? (fun i =>
    match schedule.getD ((currentMonthIndex + i) % 12) none with
    | some mc => if mc.hours ≠ [] then some mc else none
    | none => none)

/-- `self.schedule[m - 1].get("hours", [])` for a 1-based month. -/
def hoursOfMonth (schedule : List (Option MonthConfig)) (m : ℕ) : List String :=
  match schedule.getD (m - 1) none with
  | some mc => mc.hours
  | none => []

/-- The `while not hours: day += 1` loop, with fuel.  Any 366 consecutive
days meet all 12 months, so fuel 400 suffices whenever some month has hours;
running out of fuel corresponds to the Python loop never terminating. -/
def advanceToMonthWithHours (schedule : List (Option MonthConfig)) :
    ℕ → Date → Option Date
  | 0, _ => none
  | fuel + 1, d =>
    if hoursOfMonth schedule d.month ≠ [] then some d
    else advanceToMonthWithHours schedule fuel (nextDay d)

/-- Candidate-day computation of `get_next_watering_date`: push today out by
`interval_days` if rain has occurred, is forecast or is falling, and respect
the interval since the most recent rain/sprinkle event. -/
def candidate_watering_day (today : Date) (intervalDays : ℤ)
    (hasRained willRain isRaining : Bool) (lastRain lastSprinkle : Date) : Date :=
  let d0 := if hasRained ∨ willRain ∨ isRaining then addDays today intervalDays.toNat else today
  let lastEventDate := maxDate lastRain lastSprinkle
  let daysSinceLastEvent := daysFromCivil today - daysFromCivil lastEventDate
  if daysSinceLastEvent < intervalDays then addDays lastEventDate intervalDays.toNat else d0

/-- The hour-selection loop of `get_next_watering_date`: walk the configured
hour strings in list order, skip those `parse_time_string` rejects, and
return the first one whose datetime on `day` is after the current datetime. -/
def findFutureHour (today : Date) (nowSec : ℕ) (day : Date) : List String → Option ℕ
  | [] => none
  | h :: rest =>
    match parse_time_string h with
    | none => findFutureHour today nowSec day rest
    | some t => if dtLt today nowSec day t then some t else findFutureHour today nowSec day rest

/-- Embedding of `coordinator.get_next_watering_date`.  The result is
`.error ()` when the fallback path reaches `parse_time_string` on an
unparsable first hour (the one uncaught `ValueError`); otherwise
`.ok none` for the `return None` paths and `.ok (some (day, secondsOfDay))`
for a scheduled datetime. -/
def get_next_watering_date (schedule : List (Option MonthConfig)) (today : Date)
    (nowSec : ℕ) (hasRained willRain isRaining : Bool) (lastRain lastSprinkle : Date) :
    Except Unit (Option (Date × ℕ)) :=
  if schedule = [] then .ok none
  else
    match findMonthWithHours schedule (today.month - 1) with
    | none => .ok none
    | some mc =>
      let d1 := candidate_watering_day today mc.intervalDays hasRained willRain isRaining
        lastRain lastSprinkle
      match advanceToMonthWithHours schedule 400 d1 with
      | none => .ok none
      | some day =>
        match findFutureHour today nowSec day mc.hours with
        | some t => .ok (some (day, t))
        | none =>
          match mc.hours with
          | [] => .ok none
          | h0 :: _ =>
            match parse_time_string h0 with
            | none => .error ()
            | some t0 => .ok (some (nextDay day, t0))

/-! ## Concrete fixtures used to instantiate the theorems -/

/-- A two-station engine state: the January schedule waters stations at
06:00 and 20:00, station 1 for 10 minutes per run. -/
def demoState : EngineState where
  stationStates := [.stopped, .stopped]
  activeIrrigation := none
  stopEventSet := false
  sprinkleTotalToday := [0, 0]
  sprinkleTargetToday := [24, 0]
  forecastedSprinkleToday := [24, 0]
  totalWaterConsumption := 100
  lastSprinkle := ⟨2024, 1, 1⟩
  lastRain := ⟨2024, 1, 1⟩
  lastReset := ⟨2024, 1, 9⟩
  hasRainedToday := false
  willRainToday := false
  isRainingNow := false
  rainTimeToday := 0
  rainTotalToday := 0
  rainForecastToday := 0
  schedule :=
    some ⟨2, ["06:00", "20:00"], [(1, 10), (2, 0)]⟩ ::
      List.replicate 11 (some ⟨0, [], [(1, 0), (2, 0)]⟩)

/-- `demoState` with a persisted session for station 1 ending at second 50. -/
def demoActiveState : EngineState :=
  { demoState with activeIrrigation := some ⟨1, 0, some 50, 1⟩ }

/-- A schedule whose January hours are listed out of chronological order. -/
def unorderedSchedule : List (Option MonthConfig) :=
  some ⟨0, ["20:00", "06:00"], [(1, 10)]⟩ :: List.replicate 11 (some ⟨0, [], [(1, 0)]⟩)

/-! ## Theorems -/

/-- C1: for every persisted Active Irrigation Session whose `end_at` parses
to a time at or before now, the switch-strategy restore procedure issues the
station's switch-off call, clears the session record, and saves the
snapshot; the station states are untouched, so no station is marked
Sprinkling on this path. -/
theorem C1_restore_stale_session (now : ℤ) (s : EngineState) (ai : ActiveIrrigation)
    (endAt : ℤ) (hai : s.activeIrrigation = some ai) (hstation : ai.station ≠ 0)
    (hend : ai.endAt = some endAt) (hstale : endAt ≤ now) :
    (restore_active_irrigation true now s).1.activeIrrigation = none ∧
    (restore_active_irrigation true now s).1.stationStates = s.stationStates ∧
    (restore_active_irrigation true now s).2 = [Effect.turnOffSwitch ai.station, Effect.save] := by
  simp [restore_active_irrigation, hai, hstation, hend, hstale]

/-- Witness for C1 at a concrete stale session. -/
theorem C1_restore_stale_session_witness :
    demoActiveState.activeIrrigation = some ⟨1, 0, some 50, 1⟩ ∧
    (⟨1, 0, some 50, 1⟩ : ActiveIrrigation).station ≠ 0 ∧
    (⟨1, 0, some 50, 1⟩ : ActiveIrrigation).endAt = some 50 ∧ (50 : ℤ) ≤ 100 ∧
    ((restore_active_irrigation true 100 demoActiveState).1.activeIrrigation = none ∧
      (restore_active_irrigation true 100 demoActiveState).1.stationStates
        = demoActiveState.stationStates ∧
      (restore_active_irrigation true 100 demoActiveState).2
        = [Effect.turnOffSwitch 1, Effect.save]) :=
  ⟨rfl, by decide, rfl, by decide,
    C1_restore_stale_session 100 demoActiveState ⟨1, 0, some 50, 1⟩ 50 rfl (by decide) rfl
      (by decide)⟩

/-- C3: the watering duration is computed as `int(quotient + 0.999)`, not as
the ceiling of the quotient.  At a remaining target of 10.0005 mm with 1 mm
per minute the code yields 10 minutes while the claimed
`ceil(per_run_target_mm / mm_per_minute)` is 11; the documented scenario
(area 10 m², flow 12 L/min, per-run target 12.00 mm over 2 remaining
occurrences) does yield 10 minutes as claimed. -/
theorem C3_minutes_not_ceiling :
    watering_minutes (20001 / 2000) 0 0 1 1 1 = 10 ∧
    ⌈((20001 : ℚ) / 2000) / ((1 : ℚ) / 1)⌉ = 11 ∧
    watering_minutes 24 0 0 2 12 10 = 10 ∧
    ⌈((24 : ℚ) / 2) / ((12 : ℚ) / 10)⌉ = 10 := by
  refine ⟨?_, by norm_num [Int.ceil_eq_iff], ?_, by norm_num [Int.ceil_eq_iff]⟩ <;>
    norm_num [watering_minutes, pyTrunc, Int.floor_eq_iff]

/-- C6: when the opening action invocation of `start_irrigation` fails with
a connectivity error, the procedure returns with the station states, the
active-session record, the applied-mm array, the cumulative consumption and
`last_sprinkle` all unchanged, and no effect (in particular no save and no
state marked Sprinkling) issued. -/
theorem C6_start_failure_keeps_state (isSwitch : Bool) (nowDate : Date) (now : ℤ)
    (stopAtTick : Option ℕ) (waterFlowRate stationAreas : List ℚ) (manualDuration : ℤ)
    (station : ℕ) (minutes : Option ℤ) (s : EngineState) :
    (start_irrigation isSwitch false nowDate now stopAtTick waterFlowRate stationAreas
        manualDuration station minutes s).1.stationStates = s.stationStates ∧
    (start_irrigation isSwitch false nowDate now stopAtTick waterFlowRate stationAreas
        manualDuration station minutes s).1.activeIrrigation = s.activeIrrigation ∧
    (start_irrigation isSwitch false nowDate now stopAtTick waterFlowRate stationAreas
        manualDuration station minutes s).1.sprinkleTotalToday = s.sprinkleTotalToday ∧
    (start_irrigation isSwitch false nowDate now stopAtTick waterFlowRate stationAreas
        manualDuration station minutes s).1.totalWaterConsumption = s.totalWaterConsumption ∧
    (start_irrigation isSwitch false nowDate now stopAtTick waterFlowRate stationAreas
        manualDuration station minutes s).1.lastSprinkle = s.lastSprinkle ∧
    (start_irrigation isSwitch false nowDate now stopAtTick waterFlowRate stationAreas
        manualDuration station minutes s).2 = [] := by
  simp [start_irrigation]

/-- C10: when the global stop invocation of `stop_irrigation` fails with a
connectivity error, the procedure returns at once: the stop signal is not
set, the active-session record is kept, no station is marked Stopped, and no
effect is issued — an in-flight wait loop therefore keeps running. -/
theorem C10_stop_failure_keeps_state (isSwitch : Bool) (s : EngineState) :
    (stop_irrigation isSwitch false s).1.stopEventSet = s.stopEventSet ∧
    (stop_irrigation isSwitch false s).1.activeIrrigation = s.activeIrrigation ∧
    (stop_irrigation isSwitch false s).1.stationStates = s.stationStates ∧
    (stop_irrigation isSwitch false s).2 = [] := by
  simp [stop_irrigation]

/-- The rain-forecast loop accumulates exactly the per-block contributions. -/
theorem total_rain_eq_sum (today : ℤ) (currentTime : ℕ) (forecast : List ForecastBlock) :
    get_total_rain_forecast_for_today forecast today currentTime
      = (forecast.map (blockContribution today currentTime)).sum := by
  induction forecast with
  | nil => simp [get_total_rain_forecast_for_today]
  | cons item rest ih =>
    simp only [get_total_rain_forecast_for_today, List.map_cons, List.sum_cons, ih]
    by_cases hd : item.date = today
    · by_cases hend : item.hour * 60 + 180 ≤ currentTime
      · have hc : ¬ (item.date = today ∧ currentTime < item.hour * 60 + 180) := by
          omega
        simp [blockContribution, hd, hend, hc]
      · by_cases hstart : item.hour * 60 ≤ currentTime
        · have hc : item.date = today ∧ currentTime < item.hour * 60 + 180 := ⟨hd, by omega⟩
          simp [blockContribution, hd, hend, hstart, hc]
        · have hc : item.date = today ∧ currentTime < item.hour * 60 + 180 := ⟨hd, by omega⟩
          simp [blockContribution, hd, hend, hstart, hc]
    · simp [blockContribution, hd]

/-- C4: `get_total_rain_forecast_for_today` (identical in both providers)
returns the sum over the blocks of today that have not yet ended, the block
in progress prorated by its remaining fraction of the 180-minute window; a
current time exactly at a block boundary keeps the starting block's full mm,
and the midpoint of a block contributes exactly half its mm. -/
theorem C4_total_rain_forecast (forecast : List ForecastBlock) (today : ℤ)
    (currentTime : ℕ) (b : ForecastBlock) :
    get_total_rain_forecast_for_today forecast today currentTime
      = (forecast.map (blockContribution today currentTime)).sum ∧
    (b.date = today →
      get_total_rain_forecast_for_today [b] today (b.hour * 60) = b.rain3h) ∧
    (b.date = today →
      get_total_rain_forecast_for_today [b] today (b.hour * 60 + 90) = b.rain3h / 2) := by
  refine ⟨total_rain_eq_sum today currentTime forecast, fun hd => ?_, fun hd => ?_⟩
  · have hend : ¬ (b.hour * 60 + 180 ≤ b.hour * 60) := by omega
    have hsub : b.hour * 60 + 180 - b.hour * 60 = 180 := by omega
    simp [get_total_rain_forecast_for_today, hd, hend, hsub]
  · have hend : ¬ (b.hour * 60 + 180 ≤ b.hour * 60 + 90) := by omega
    have hsub : b.hour * 60 + 180 - (b.hour * 60 + 90) = 90 := by omega
    simp [get_total_rain_forecast_for_today, hd, hend, hsub]
    ring

/-- Witness for C4 on a single 06:00 block holding 4 mm: the boundary time
06:00 keeps all 4 mm and the midpoint 07:30 keeps 2 mm. -/
theorem C4_total_rain_forecast_witness :
    (⟨0, 6, 4, 0⟩ : ForecastBlock).date = (0 : ℤ) ∧
    get_total_rain_forecast_for_today [⟨0, 6, 4, 0⟩] 0 360 = 4 ∧
    get_total_rain_forecast_for_today [⟨0, 6, 4, 0⟩] 0 450 = 2 := by
  refine ⟨rfl, ?_, ?_⟩
  · have h := (C4_total_rain_forecast [⟨0, 6, 4, 0⟩] 0 360 ⟨0, 6, 4, 0⟩).2.1 rfl
    norm_num at h
    exact h
  · have h := (C4_total_rain_forecast [⟨0, 6, 4, 0⟩] 0 450 ⟨0, 6, 4, 0⟩).2.2 rfl
    norm_num at h
    exact h

theorem getD_map_range {α : Type} (n : ℕ) (f : ℕ → α) (i : ℕ) (d : α) (hi : i < n) :
    ((List.range n).map f).getD i d = f i := by
  rw [List.getD_eq_getElem?_getD, List.getElem?_map, List.getElem?_range hi]
  rfl

theorem round2_pos (q : ℚ) (hq : 1 / 200 ≤ q) : 0 < round2 q := by
  have h1 : (1 : ℤ) ≤ round (q * 100) := by
    rw [round_eq]
    exact Int.le_floor.mpr (by push_cast; linarith)
  have h2 : (0 : ℚ) < ((round (q * 100) : ℤ) : ℚ) := by exact_mod_cast h1
  exact div_pos h2 (by norm_num)

/-- The two early-return branches of `calculate_sprinkle_target_amounts`
produce the all-zero array. -/
theorem calc_targets_zero (numStations : ℕ) (schedule : List (Option MonthConfig))
    (today lastRain lastSprinkle : Date) (waterFlowRate stationAreas : List ℚ)
    (mc : MonthConfig) (hmc : schedule.getD (today.month - 1) none = some mc)
    (h : daysFromCivil today - daysFromCivil (maxDate lastRain lastSprinkle) < mc.intervalDays
        ∨ mc.hours.filter (fun h => h ≠ "") = []) :
    calculate_sprinkle_target_amounts numStations schedule today lastRain lastSprinkle
        waterFlowRate stationAreas = List.replicate numStations 0 := by
  unfold calculate_sprinkle_target_amounts
  rw [hmc]
  dsimp only
  rcases h with h | h
  · rw [if_pos h]
  · by_cases hgate :
      daysFromCivil today - daysFromCivil (maxDate lastRain lastSprinkle) < mc.intervalDays
    · rw [if_pos hgate]
    · rw [if_neg hgate, if_pos h]

/-- In the computing branch of `calculate_sprinkle_target_amounts`, a
station with positive configured minutes receives the rounded
`(flow / area) * (minutes * occurrences)` value. -/
theorem calc_targets_value (numStations : ℕ) (schedule : List (Option MonthConfig))
    (today lastRain lastSprinkle : Date) (waterFlowRate stationAreas : List ℚ)
    (mc : MonthConfig) (hmc : schedule.getD (today.month - 1) none = some mc)
    (hgate : ¬ daysFromCivil today - daysFromCivil (maxDate lastRain lastSprinkle)
        < mc.intervalDays)
    (hhours : mc.hours.filter (fun h => h ≠ "") ≠ [])
    (i : ℕ) (hi : i < numStations) (hmin : 0 < stationMinutesOf mc (i + 1)) :
    (calculate_sprinkle_target_amounts numStations schedule today lastRain lastSprinkle
        waterFlowRate stationAreas).getD i 0
      = round2 ((waterFlowRate.getD i 0 /
            (if stationAreas.getD i 0 = 0 then 1 else stationAreas.getD i 0)) *
          ((stationMinutesOf mc (i + 1)
            * ((mc.hours.filter (fun h => h ≠ "")).length : ℤ) : ℤ) : ℚ)) := by
  have hocc : (0 : ℤ) < ((mc.hours.filter (fun h => h ≠ "")).length : ℤ) := by
    exact_mod_cast List.length_pos.mpr hhours
  have htot : 0 < stationMinutesOf mc (i + 1)
      * ((mc.hours.filter (fun h => h ≠ "")).length : ℤ) := mul_pos hmin hocc
  unfold calculate_sprinkle_target_amounts
  rw [hmc]
  dsimp only
  rw [if_neg hgate, if_neg hhours, getD_map_range _ _ _ _ hi, if_pos htot]

/-- C2: the daily target computation returns 0.0 for every station when the
most recent rain/sprinkle event is fewer than `interval_days` days before
today or when the month's (non-empty) watering hours are absent; otherwise a
station with positive configured minutes gets
`(flow_rate / area) * (minutes_per_run * occurrences)` rounded to two
decimals, area read as 1 when zero, and at exactly `interval_days` since the
last event the computed target is positive whenever the unrounded value is
at least half of one hundredth. -/
theorem C2_daily_targets (numStations : ℕ) (schedule : List (Option MonthConfig))
    (today lastRain lastSprinkle : Date) (waterFlowRate stationAreas : List ℚ)
    (mc : MonthConfig) (hmc : schedule.getD (today.month - 1) none = some mc) :
    ((daysFromCivil today - daysFromCivil (maxDate lastRain lastSprinkle) < mc.intervalDays
        ∨ mc.hours.filter (fun h => h ≠ "") = []) →
      calculate_sprinkle_target_amounts numStations schedule today lastRain lastSprinkle
          waterFlowRate stationAreas = List.replicate numStations 0) ∧
    (mc.intervalDays ≤ daysFromCivil today - daysFromCivil (maxDate lastRain lastSprinkle) →
      mc.hours.filter (fun h => h ≠ "") ≠ [] →
      ∀ i < numStations, 0 < stationMinutesOf mc (i + 1) →
        (calculate_sprinkle_target_amounts numStations schedule today lastRain lastSprinkle
            waterFlowRate stationAreas).getD i 0
          = round2 ((waterFlowRate.getD i 0 /
                (if stationAreas.getD i 0 = 0 then 1 else stationAreas.getD i 0)) *
              ((stationMinutesOf mc (i + 1)
                * ((mc.hours.filter (fun h => h ≠ "")).length : ℤ) : ℤ) : ℚ))) ∧
    (daysFromCivil today - daysFromCivil (maxDate lastRain lastSprinkle) = mc.intervalDays →
      mc.hours.filter (fun h => h ≠ "") ≠ [] →
      ∀ i < numStations, 0 < stationMinutesOf mc (i + 1) →
        1 / 200 ≤ (waterFlowRate.getD i 0 /
              (if stationAreas.getD i 0 = 0 then 1 else stationAreas.getD i 0)) *
            ((stationMinutesOf mc (i + 1)
              * ((mc.hours.filter (fun h => h ≠ "")).length : ℤ) : ℤ) : ℚ) →
        0 < (calculate_sprinkle_target_amounts numStations schedule today lastRain lastSprinkle
              waterFlowRate stationAreas).getD i 0) := by
  refine ⟨fun h => calc_targets_zero _ _ _ _ _ _ _ _ hmc h, ?_, ?_⟩
  · intro hge hhours i hi hmin
    exact calc_targets_value _ _ _ _ _ _ _ _ hmc (by omega) hhours i hi hmin
  · intro heq hhours i hi hmin hbig
    rw [calc_targets_value _ _ _ _ _ _ _ _ hmc (by omega) hhours i hi hmin]
    exact round2_pos _ hbig

/-- Witness for C2 on the demo schedule (January: hours 06:00 and 20:00,
interval 2 days, station 1 at 10 minutes per run, flow 12 L/min over
10 m²): a last event 1 day ago zeroes every target, a last event 8 days ago
yields `round2((12/10) * 20) = 24` mm, and at exactly 2 days the target is
positive. -/
theorem C2_daily_targets_witness :
    demoState.schedule.getD 0 none = some ⟨2, ["06:00", "20:00"], [(1, 10), (2, 0)]⟩ ∧
    calculate_sprinkle_target_amounts 2 demoState.schedule ⟨2024, 1, 9⟩ ⟨2024, 1, 8⟩
        ⟨2024, 1, 8⟩ [12, 12] [10, 0] = List.replicate 2 0 ∧
    (calculate_sprinkle_target_amounts 2 demoState.schedule ⟨2024, 1, 9⟩ ⟨2024, 1, 1⟩
        ⟨2024, 1, 1⟩ [12, 12] [10, 0]).getD 0 0 = 24 ∧
    0 < (calculate_sprinkle_target_amounts 2 demoState.schedule ⟨2024, 1, 9⟩ ⟨2024, 1, 7⟩
        ⟨2024, 1, 7⟩ [12, 12] [10, 0]).getD 0 0 := by
  refine ⟨by decide, ?_, ?_, ?_⟩
  · exact (C2_daily_targets 2 demoState.schedule ⟨2024, 1, 9⟩ ⟨2024, 1, 8⟩ ⟨2024, 1, 8⟩
      [12, 12] [10, 0] ⟨2, ["06:00", "20:00"], [(1, 10), (2, 0)]⟩ (by decide)).1
      (Or.inl (by decide))
  · have h := (C2_daily_targets 2 demoState.schedule ⟨2024, 1, 9⟩ ⟨2024, 1, 1⟩ ⟨2024, 1, 1⟩
      [12, 12] [10, 0] ⟨2, ["06:00", "20:00"], [(1, 10), (2, 0)]⟩ (by decide)).2.1
      (by decide) (by decide) 0 (by decide) (by decide)
    rw [h]
    have hlen : (List.filter (fun h => !decide (h = "")) ["06:00", "20:00"]).length = 2 := rfl
    norm_num [stationMinutesOf, round2, round_eq, hlen]
  · exact (C2_daily_targets 2 demoState.schedule ⟨2024, 1, 9⟩ ⟨2024, 1, 7⟩ ⟨2024, 1, 7⟩
      [12, 12] [10, 0] ⟨2, ["06:00", "20:00"], [(1, 10), (2, 0)]⟩ (by decide)).2.2
      (by decide) (by decide) 0 (by decide) (by decide)
      (by
        have hlen : (List.filter (fun h => !decide (h = "")) ["06:00", "20:00"]).length = 2 := rfl
        norm_num [stationMinutesOf, hlen])

theorem lookup_dictInsert_self (pl : List (String × Scalar)) (k : String) (v : Scalar) :
    (dictInsert pl k v).lookup k = some v := by
  induction pl with
  | nil => simp [dictInsert, List.lookup]
  | cons hd tl ih =>
    obtain ⟨k1, w⟩ := hd
    by_cases h : k1 = k
    · subst h
      simp [dictInsert, List.lookup]
    · have hbeq : (k == k1) = false := beq_eq_false_iff_ne.mpr (Ne.symm h)
      simp [dictInsert, h, List.lookup, hbeq, ih]

theorem lookup_dictInsert_ne (pl : List (String × Scalar)) (k key : String) (v : Scalar)
    (h : k ≠ key) : (dictInsert pl key v).lookup k = pl.lookup k := by
  have hbeq : (k == key) = false := beq_eq_false_iff_ne.mpr h
  induction pl with
  | nil => simp [dictInsert, List.lookup, hbeq]
  | cons hd tl ih =>
    obtain ⟨k1, w⟩ := hd
    by_cases h1 : k1 = key
    · subst h1
      simp [dictInsert, List.lookup, hbeq]
    · simp [dictInsert, h1, List.lookup, ih]

/-- Parameters whose (trimmed) names differ from `k` never change the
payload entry at `k`. -/
theorem buildPayload_lookup_preserve (mac : String) (st mi : Option ℤ) (k : String) :
    ∀ (ps : List ServiceParam) (payload payload' : List (String × Scalar)),
      (∀ q ∈ ps, pyStrip q.name ≠ k) →
      buildPayload mac st mi ps payload = .ok payload' →
      payload'.lookup k = payload.lookup k := by
  intro ps
  induction ps with
  | nil =>
    intro payload payload' _ h
    simp only [buildPayload, Except.ok.injEq] at h
    rw [h]
  | cons p rest ih =>
    intro payload payload' hk h
    have hpk : pyStrip p.name ≠ k := hk p (by simp)
    have hrest : ∀ q ∈ rest, pyStrip q.name ≠ k := fun q hq => hk q (by simp [hq])
    simp only [buildPayload] at h
    split_ifs at h
    all_goals
      first
        | exact ih _ _ hrest h
        | (rw [ih _ _ hrest h, lookup_dictInsert_ne _ _ _ _ (Ne.symm hpk)])

/-- A parameter with a non-empty configured literal ends up in the payload
as the coerced literal, provided no later parameter reuses its name. -/
theorem buildPayload_literal (mac : String) (st mi : Option ℤ) (p : ServiceParam)
    (hname : pyStrip p.name ≠ "") (hval : pyStrip p.value ≠ "") :
    ∀ (l1 l2 : List ServiceParam) (payload payload' : List (String × Scalar)),
      (∀ q ∈ l2, pyStrip q.name ≠ pyStrip p.name) →
      buildPayload mac st mi (l1 ++ p :: l2) payload = .ok payload' →
      payload'.lookup (pyStrip p.name) = some (coerce_scalar p.value) := by
  intro l1
  induction l1 with
  | nil =>
    intro l2 payload payload' hl2 h
    simp only [List.nil_append] at h
    simp only [buildPayload, hname, hval] at h
    simp only [if_neg hname, if_pos hval] at h
    rw [buildPayload_lookup_preserve mac st mi _ l2 _ _ hl2 h, lookup_dictInsert_self]
  | cons q rest ih =>
    intro l2 payload payload' hl2 h
    simp only [List.cons_append] at h
    simp only [buildPayload] at h
    split_ifs at h
    all_goals
      first
        | exact ih _ _ _ hl2 h

/-- C5: in the remote-action strategy, every parameter with a non-empty
configured literal value is sent as that literal passed through
`_coerce_scalar` (digit strings to int, float literals to float, everything
else as a string), whatever runtime station or minutes arguments the call
carries. -/
theorem C5_literal_overrides (serviceActions : List (String × ActionCfg))
    (controllerMac : String) (action : String) (station minutes : Option ℤ)
    (cfg : ActionCfg) (p : ServiceParam) (l1 l2 : List ServiceParam)
    (hcfg : serviceActions.lookup action = some cfg)
    (hparams : cfg.params = l1 ++ p :: l2)
    (hname : pyStrip p.name ≠ "") (hval : pyStrip p.value ≠ "")
    (hlater : ∀ q ∈ l2, pyStrip q.name ≠ pyStrip p.name)
    (domain service : String) (payload : List (String × Scalar))
    (hok : call_configured_service serviceActions controllerMac action station minutes
        = .ok (domain, service, payload)) :
    payload.lookup (pyStrip p.name) = some (coerce_scalar p.value) := by
  unfold call_configured_service at hok
  rw [hcfg] at hok
  simp only [Option.getD_some] at hok
  rcases Decidable.em cfg.enabled with hen | hen
  · rw [if_neg (not_not_intro hen)] at hok
    by_cases hsv : pyStrip cfg.service = ""
        ∨ (splitOnChar '.' (pyStrip cfg.service)).length < 2
    · rw [if_pos hsv] at hok
      exact absurd hok (by simp)
    · rw [if_neg hsv] at hok
      cases hbp : buildPayload controllerMac station minutes cfg.params [] with
      | error e =>
        rw [hbp] at hok
        exact absurd hok (by simp)
      | ok pl =>
        rw [hbp] at hok
        simp only [Except.ok.injEq, Prod.mk.injEq] at hok
        obtain ⟨-, -, hpl⟩ := hok
        subst hpl
        rw [hparams] at hbp
        exact buildPayload_literal controllerMac station minutes p hname hval l1 l2 [] pl
          hlater hbp
  · rw [if_pos hen] at hok
    exact absurd hok (by simp)

/-- Witness for C5: the `sprinkle_station` action has a literal station
value `"3"`; invoking it with runtime station 5 and minutes 8 sends the
integer 3 for the station parameter (and the runtime 8 for the unset time
parameter). -/
theorem C5_literal_overrides_witness :
    ([("sprinkle_station", (⟨true, "mydomain.myaction",
          [⟨"station", "station", "3"⟩, ⟨"minutes", "time", ""⟩]⟩ : ActionCfg))].lookup
        "sprinkle_station"
      = some ⟨true, "mydomain.myaction",
          [⟨"station", "station", "3"⟩, ⟨"minutes", "time", ""⟩]⟩) ∧
    call_configured_service
        [("sprinkle_station", ⟨true, "mydomain.myaction",
          [⟨"station", "station", "3"⟩, ⟨"minutes", "time", ""⟩]⟩)]
        "aa:bb" "sprinkle_station" (some 5) (some 8)
      = .ok ("mydomain", "myaction", [("station", .int 3), ("minutes", .int 8)]) ∧
    [("station", Scalar.int 3), ("minutes", Scalar.int 8)].lookup "station"
      = some (coerce_scalar "3") ∧
    coerce_scalar "3" = .int 3 := by
  refine ⟨rfl, rfl, ?_, by decide⟩
  exact C5_literal_overrides
    [("sprinkle_station", ⟨true, "mydomain.myaction",
      [⟨"station", "station", "3"⟩, ⟨"minutes", "time", ""⟩]⟩)]
    "aa:bb" "sprinkle_station" (some 5) (some 8)
    ⟨true, "mydomain.myaction", [⟨"station", "station", "3"⟩, ⟨"minutes", "time", ""⟩]⟩
    ⟨"station", "station", "3"⟩ [] [⟨"minutes", "time", ""⟩]
    rfl rfl (by decide) (by decide) (by decide)
    "mydomain" "myaction" [("station", .int 3), ("minutes", .int 8)] rfl

theorem mem_insertByHour (a b : ForecastBlock) (l : List ForecastBlock) :
    a ∈ insertByHour b l ↔ a = b ∨ a ∈ l := by
  induction l with
  | nil => simp [insertByHour]
  | cons c rest ih =>
    by_cases h : b.hour ≤ c.hour
    · simp [insertByHour, h]
    · simp only [insertByHour, if_neg h, List.mem_cons, ih]
      tauto

theorem mem_sortByHour (a : ForecastBlock) (l : List ForecastBlock) :
    a ∈ sortByHour l ↔ a ∈ l := by
  induction l with
  | nil => simp [sortByHour]
  | cons b rest ih => simp [sortByHour, mem_insertByHour, ih]

/-- Membership in PirateWeather's forecast list: the blocks at or after the
current boundary, plus today's 00:00 block. -/
theorem mem_pirate_get_forecast (hourly : List HourlyItem) (today : ℤ) (currentHour : ℕ)
    (x : ForecastBlock) :
    x ∈ pirate_get_forecast hourly today currentHour ↔
      x ∈ (pirateBlockStarts.map (pirateBuildBlock hourly today)).filter
          (fun b => decide (b.date = today) &&
            decide (currentBlockOf pirateBlockStarts currentHour ≤ b.hour)) ∨
        x = pirateBuildBlock hourly today 0 := by
  have hfind : (pirateBlockStarts.map (pirateBuildBlock hourly today)).find?
      (fun b => decide (b.hour = 0)) = some (pirateBuildBlock hourly today 0) := by
    simp [pirateBlockStarts, pirateBuildBlock, List.find?]
  simp only [pirate_get_forecast]
  rw [hfind]
  dsimp only
  by_cases hc : ((pirateBlockStarts.map (pirateBuildBlock hourly today)).filter
      (fun b => decide (b.date = today) &&
        decide (currentBlockOf pirateBlockStarts currentHour ≤ b.hour))).contains
      (pirateBuildBlock hourly today 0) = true
  · rw [if_pos hc, mem_sortByHour]
    constructor
    · exact Or.inl
    · rintro (hx | rfl)
      · exact hx
      · simpa [List.contains] using hc
  · rw [if_neg hc, mem_sortByHour, List.mem_append]
    simp

/-- C7 (amended): `will_it_rain` is true iff some retained block has
`pop > 0.50`, where OpenWeatherMap retains the blocks dated today whose hour
is at least the largest of {0,3,...,18} not exceeding the current hour, and
PirateWeather retains today's blocks from the current boundary
(over {0,3,...,21}) on plus, always, today's 00:00 block. -/
theorem C7_will_it_rain_blocks (forecast : List ForecastBlock)
    (hourly : List HourlyItem) (today : ℤ) (currentHour : ℕ) :
    (owm_will_it_rain forecast today currentHour = true ↔
      ∃ b ∈ forecast, b.date = today ∧
        currentBlockOf owmBlockHours currentHour ≤ b.hour ∧ (1 : ℚ) / 2 < b.pop) ∧
    (pirate_will_it_rain hourly today currentHour = true ↔
      ∃ startHour ∈ pirateBlockStarts,
        (currentBlockOf pirateBlockStarts currentHour ≤ startHour ∨ startHour = 0) ∧
        (1 : ℚ) / 2 < (pirateBuildBlock hourly today startHour).pop) := by
  constructor
  · simp only [owm_will_it_rain, List.any_eq_true, List.mem_filter, Bool.and_eq_true,
      decide_eq_true_eq]
    tauto
  · rw [pirate_will_it_rain, List.any_eq_true]
    constructor
    · rintro ⟨x, hx, hpop⟩
      rw [decide_eq_true_eq] at hpop
      rcases (mem_pirate_get_forecast hourly today currentHour x).mp hx with hx | rfl
      · rw [List.mem_filter] at hx
        obtain ⟨hxm, hcond⟩ := hx
        rw [List.mem_map] at hxm
        obtain ⟨st, hst, rfl⟩ := hxm
        simp only [Bool.and_eq_true, decide_eq_true_eq] at hcond
        exact ⟨st, hst, Or.inl (by simpa [pirateBuildBlock] using hcond.2), hpop⟩
      · exact ⟨0, by simp [pirateBlockStarts], Or.inr rfl, hpop⟩
    · rintro ⟨st, hst, hcond, hpop⟩
      rcases hcond with hge | rfl
      · refine ⟨pirateBuildBlock hourly today st,
          (mem_pirate_get_forecast hourly today currentHour _).mpr (Or.inl ?_),
          by simpa using hpop⟩
        rw [List.mem_filter]
        exact ⟨List.mem_map_of_mem _ hst, by simp [pirateBuildBlock, hge]⟩
      · exact ⟨pirateBuildBlock hourly today 0,
          (mem_pirate_get_forecast hourly today currentHour _).mpr (Or.inr rfl),
          by simpa using hpop⟩

/-- C7 counterexample: at 12:00, with a single hourly point at 01:00 today
carrying pop 0.9, PirateWeather's `will_it_rain` reports true although no
forecast block dated today with start hour at or after the 12:00 boundary
has pop above 0.50 — the always-retained 00:00 block alone triggers it. -/
theorem C7_midnight_block_counterexample :
    pirate_will_it_rain [⟨0, 60, 2, 9 / 10⟩] 0 12 = true ∧
    (pirate_get_forecast [⟨0, 60, 2, 9 / 10⟩] 0 12).all
      (fun b => !(decide (b.date = 0) && decide (12 ≤ b.hour) &&
        decide ((1 : ℚ) / 2 < b.pop))) = true := by
  constructor
  · norm_num [pirate_will_it_rain, pirate_get_forecast, pirateBuildBlock, pirateBlockStarts,
      currentBlockOf, sortByHour, insertByHour, List.find?, List.filter]
  · norm_num [pirate_get_forecast, pirateBuildBlock, pirateBlockStarts,
      currentBlockOf, sortByHour, insertByHour, List.find?, List.filter]

theorem getD_nonneg_of_forall (l : List ℚ) (i : ℕ) (h : ∀ q ∈ l, 0 ≤ q) :
    0 ≤ l.getD i 0 := by
  rw [List.getD_eq_getElem?_getD]
  cases hget : l[i]? with
  | none => simp
  | some v => simpa using h v (List.getElem?_mem hget)

/-- The session loop adds exactly `ticks * flow / 60` liters when it runs,
and nothing when the invocation fails. -/
theorem start_total_eq (isSwitch apiOk : Bool) (nowDate : Date) (now : ℤ)
    (stopAtTick : Option ℕ) (flows areas : List ℚ) (manualDuration : ℤ)
    (station : ℕ) (minutes : Option ℤ) (s : EngineState) :
    (start_irrigation isSwitch apiOk nowDate now stopAtTick flows areas manualDuration
        station minutes s).1.totalWaterConsumption
      = s.totalWaterConsumption +
        (if apiOk then
          (ticksRun ((minutes.getD manualDuration) * 60).toNat stopAtTick : ℚ) *
            (flows.getD (station - 1) 0 / 60)
        else 0) := by
  cases apiOk
  · simp [start_irrigation]
  · cases isSwitch <;>
      simp [start_irrigation, apply_ite EngineState.totalWaterConsumption]

theorem start_total_mono (isSwitch apiOk : Bool) (nowDate : Date) (now : ℤ)
    (stopAtTick : Option ℕ) (flows areas : List ℚ) (manualDuration : ℤ)
    (station : ℕ) (minutes : Option ℤ) (s : EngineState)
    (hflow : ∀ q ∈ flows, 0 ≤ q) :
    s.totalWaterConsumption ≤ (start_irrigation isSwitch apiOk nowDate now stopAtTick flows
        areas manualDuration station minutes s).1.totalWaterConsumption := by
  rw [start_total_eq]
  split_ifs
  · have h1 : (0 : ℚ) ≤ flows.getD (station - 1) 0 := getD_nonneg_of_forall _ _ hflow
    have h2 : (0 : ℚ) ≤ (ticksRun ((minutes.getD manualDuration) * 60).toNat stopAtTick : ℚ) := by
      positivity
    nlinarith
  · simp

theorem stop_total_eq (isSwitch apiOk : Bool) (s : EngineState) :
    (stop_irrigation isSwitch apiOk s).1.totalWaterConsumption = s.totalWaterConsumption := by
  cases apiOk <;> cases isSwitch <;> simp [stop_irrigation]

theorem reset_total_eq (numStations : ℕ) (today : Date) (weatherForecast : Option ℚ)
    (flows areas : List ℚ) (s : EngineState) :
    (reset_rain_sprinkle_indicators numStations today weatherForecast flows areas
        s).1.totalWaterConsumption = s.totalWaterConsumption := by
  simp [reset_rain_sprinkle_indicators]

theorem update_total_eq (isSwitch stopApiOk sprinkleWithRain : Bool) (numStations : ℕ)
    (today : Date) (nowSec : ℕ) (pollInterval : ℚ) (weather : Option WeatherObs)
    (flows areas : List ℚ) (s : EngineState) :
    (update_all_sensors isSwitch stopApiOk sprinkleWithRain numStations today nowSec
        pollInterval weather flows areas s).1.totalWaterConsumption
      = s.totalWaterConsumption := by
  cases weather with
  | none =>
    unfold update_all_sensors
    dsimp only
    split_ifs <;> simp [stop_total_eq, reset_total_eq]
  | some w =>
    unfold update_all_sensors
    dsimp only
    split_ifs <;> simp [stop_total_eq, reset_total_eq]

theorem watering_cycle_step_total_mono (isSwitch : Bool) (apiOkF : ℕ → Bool)
    (stopAtTickF : ℕ → Option ℕ) (nowDate : Date) (now : ℤ) (occurrencesLeft : ℕ)
    (flows areas : List ℚ) (manualDuration : ℤ) (acc : EngineState × List Effect)
    (entry : ℕ × ℤ) (hflow : ∀ q ∈ flows, 0 ≤ q) :
    acc.1.totalWaterConsumption ≤ (watering_cycle_step isSwitch apiOkF stopAtTickF nowDate
        now occurrencesLeft flows areas manualDuration acc entry).1.totalWaterConsumption := by
  unfold watering_cycle_step
  dsimp only
  split_ifs <;>
    first
      | exact le_refl _
      | exact start_total_mono _ _ _ _ _ _ _ _ _ _ _ hflow

theorem foldl_cycle_step_total_mono (isSwitch : Bool) (apiOkF : ℕ → Bool)
    (stopAtTickF : ℕ → Option ℕ) (nowDate : Date) (now : ℤ) (occurrencesLeft : ℕ)
    (flows areas : List ℚ) (manualDuration : ℤ) (hflow : ∀ q ∈ flows, 0 ≤ q) :
    ∀ (entries : List (ℕ × ℤ)) (acc : EngineState × List Effect),
      acc.1.totalWaterConsumption ≤ (entries.foldl (watering_cycle_step isSwitch apiOkF
          stopAtTickF nowDate now occurrencesLeft flows areas manualDuration)
          acc).1.totalWaterConsumption := by
  intro entries
  induction entries with
  | nil => intro acc; simp
  | cons e rest ih =>
    intro acc
    exact le_trans (watering_cycle_step_total_mono isSwitch apiOkF stopAtTickF nowDate now
      occurrencesLeft flows areas manualDuration acc e hflow) (ih _)

theorem run_cycle_total_mono (isSwitch : Bool) (apiOkF : ℕ → Bool)
    (stopAtTickF : ℕ → Option ℕ) (nowDate : Date) (now : ℤ) (nowHM : ℕ)
    (soilMoisture : Option ℚ) (threshold : ℚ) (flows areas : List ℚ)
    (manualDuration : ℤ) (s : EngineState) (hflow : ∀ q ∈ flows, 0 ≤ q) :
    s.totalWaterConsumption ≤ (run_watering_cycle isSwitch apiOkF stopAtTickF nowDate now
        nowHM soilMoisture threshold flows areas manualDuration
        s).1.totalWaterConsumption := by
  unfold run_watering_cycle
  split
  · exact le_refl _
  · split
    · exact le_refl _
    · dsimp only
      split_ifs
      · exact le_refl _
      · exact foldl_cycle_step_total_mono isSwitch apiOkF stopAtTickF nowDate now _ flows
          areas manualDuration hflow _ (s, [])

/-- C9: no engine operation decreases `total_water_consumption`: a started
session adds exactly `flow_rate / 60` liters per one-second tick, stopping,
the daily reset, a sensor-update pass and a schedule replacement leave it
unchanged, a watering cycle only grows it, and the daily reset zeroes only
the per-day rain and sprinkle counters, leaving the cumulative total (and
the session, station and last-event fields) intact. -/
theorem C9_total_consumption_monotone (isSwitch apiOk stopApiOk sprinkleWithRain : Bool)
    (nowDate today : Date) (now : ℤ) (nowSec nowHM : ℕ) (stopAtTick : Option ℕ)
    (apiOkF : ℕ → Bool) (stopAtTickF : ℕ → Option ℕ) (soilMoisture : Option ℚ)
    (threshold pollInterval : ℚ) (weather : Option WeatherObs)
    (weatherForecast : Option ℚ) (flows areas : List ℚ) (manualDuration : ℤ)
    (numStations station : ℕ) (minutes : Option ℤ)
    (newSchedule : List (Option MonthConfig)) (s : EngineState)
    (hflow : ∀ q ∈ flows, 0 ≤ q) :
    ((start_irrigation isSwitch apiOk nowDate now stopAtTick flows areas manualDuration
        station minutes s).1.totalWaterConsumption
      = s.totalWaterConsumption +
        (if apiOk then
          (ticksRun ((minutes.getD manualDuration) * 60).toNat stopAtTick : ℚ) *
            (flows.getD (station - 1) 0 / 60)
        else 0)) ∧
    (s.totalWaterConsumption ≤ (start_irrigation isSwitch apiOk nowDate now stopAtTick flows
        areas manualDuration station minutes s).1.totalWaterConsumption) ∧
    ((stop_irrigation isSwitch apiOk s).1.totalWaterConsumption
      = s.totalWaterConsumption) ∧
    ((reset_rain_sprinkle_indicators numStations today weatherForecast flows areas
        s).1.totalWaterConsumption = s.totalWaterConsumption) ∧
    ((reset_rain_sprinkle_indicators numStations today weatherForecast flows areas
        s).1.rainTotalToday = 0 ∧
      (reset_rain_sprinkle_indicators numStations today weatherForecast flows areas
        s).1.rainTimeToday = 0 ∧
      (reset_rain_sprinkle_indicators numStations today weatherForecast flows areas
        s).1.hasRainedToday = false ∧
      (reset_rain_sprinkle_indicators numStations today weatherForecast flows areas
        s).1.willRainToday = false ∧
      (reset_rain_sprinkle_indicators numStations today weatherForecast flows areas
        s).1.sprinkleTotalToday = List.replicate numStations 0 ∧
      (reset_rain_sprinkle_indicators numStations today weatherForecast flows areas
        s).1.lastRain = s.lastRain ∧
      (reset_rain_sprinkle_indicators numStations today weatherForecast flows areas
        s).1.lastSprinkle = s.lastSprinkle ∧
      (reset_rain_sprinkle_indicators numStations today weatherForecast flows areas
        s).1.stationStates = s.stationStates ∧
      (reset_rain_sprinkle_indicators numStations today weatherForecast flows areas
        s).1.activeIrrigation = s.activeIrrigation) ∧
    ((update_all_sensors isSwitch stopApiOk sprinkleWithRain numStations today nowSec
        pollInterval weather flows areas s).1.totalWaterConsumption
      = s.totalWaterConsumption) ∧
    ((async_set_schedule newSchedule s).1.totalWaterConsumption
      = s.totalWaterConsumption) ∧
    (s.totalWaterConsumption ≤ (run_watering_cycle isSwitch apiOkF stopAtTickF nowDate now
        nowHM soilMoisture threshold flows areas manualDuration
        s).1.totalWaterConsumption) := by
  refine ⟨start_total_eq _ _ _ _ _ _ _ _ _ _ _,
    start_total_mono _ _ _ _ _ _ _ _ _ _ _ hflow,
    stop_total_eq _ _ _,
    reset_total_eq _ _ _ _ _ _,
    ?_,
    update_total_eq _ _ _ _ _ _ _ _ _ _ _,
    by simp [async_set_schedule],
    run_cycle_total_mono _ _ _ _ _ _ _ _ _ _ _ _ hflow⟩
  refine ⟨?_, ?_, ?_, ?_, ?_, ?_, ?_, ?_, ?_⟩ <;> simp [reset_rain_sprinkle_indicators]

/-- Witness for C9 at concrete inputs (two stations, flow 12 L/min,
a 5-minute session that runs to completion). -/
theorem C9_total_consumption_monotone_witness :
    (∀ q ∈ ([12, 12] : List ℚ), 0 ≤ q) ∧
    ((start_irrigation true true ⟨2024, 1, 10⟩ 0 none [12, 12] [10, 0] 10 1 (some 5)
        demoState).1.totalWaterConsumption
      = demoState.totalWaterConsumption +
        (if true then (ticksRun (((some (5 : ℤ)).getD 10) * 60).toNat none : ℚ) *
            (([12, 12] : List ℚ).getD 0 0 / 60) else 0)) ∧
    ((stop_irrigation true true demoState).1.totalWaterConsumption
      = demoState.totalWaterConsumption) ∧
    ((reset_rain_sprinkle_indicators 2 ⟨2024, 1, 10⟩ (some 3) [12, 12] [10, 0]
        demoState).1.totalWaterConsumption = demoState.totalWaterConsumption) := by
  have h := C9_total_consumption_monotone true true true false ⟨2024, 1, 10⟩ ⟨2024, 1, 10⟩
    0 0 0 none (fun _ => true) (fun _ => none) none 0 0 none (some 3) [12, 12] [10, 0]
    10 2 1 (some 5) [] demoState (by norm_num)
  exact ⟨by norm_num, h.1, h.2.2.1, h.2.2.2.1⟩

/-- What the day-advancing loop guarantees: the returned day's month has
hours, and every day skipped on the way had none. -/
theorem advanceToMonthWithHours_spec (schedule : List (Option MonthConfig)) :
    ∀ (fuel : ℕ) (d day : Date),
      advanceToMonthWithHours schedule fuel d = some day →
      hoursOfMonth schedule day.month ≠ [] ∧
      ∃ k, day = addDays d k ∧
        ∀ j < k, hoursOfMonth schedule (addDays d j).month = [] := by
  intro fuel
  induction fuel with
  | zero =>
    intro d day h
    simp [advanceToMonthWithHours] at h
  | succ n ih =>
    intro d day h
    rw [advanceToMonthWithHours] at h
    by_cases hd : hoursOfMonth schedule d.month ≠ []
    · rw [if_pos hd] at h
      obtain rfl := Option.some.inj h
      exact ⟨hd, 0, rfl, fun j hj => absurd hj (Nat.not_lt_zero j)⟩
    · rw [if_neg hd] at h
      obtain ⟨hday, k, hk, hprev⟩ := ih (nextDay d) day h
      refine ⟨hday, k + 1, hk, ?_⟩
      intro j hj
      cases j with
      | zero => exact not_not.mp hd
      | succ j => exact hprev j (by omega)

/-- What the hour-selection loop returns: the first hour in configured list
order that parses and lies in the future; every earlier listed hour either
fails to parse or is already past. -/
theorem findFutureHour_spec (today : Date) (nowSec : ℕ) (day : Date) :
    ∀ (hours : List String) (t : ℕ),
      findFutureHour today nowSec day hours = some t →
      ∃ l1 h l2, hours = l1 ++ h :: l2 ∧ parse_time_string h = some t ∧
        dtLt today nowSec day t = true ∧
        ∀ h' ∈ l1, ∀ t', parse_time_string h' = some t' →
          dtLt today nowSec day t' = false := by
  intro hours
  induction hours with
  | nil =>
    intro t h
    simp [findFutureHour] at h
  | cons h0 rest ih =>
    intro t h
    rw [findFutureHour] at h
    cases hp : parse_time_string h0 with
    | none =>
      rw [hp] at h
      dsimp only at h
      obtain ⟨l1, hh, l2, heq, hpar, hfut, hprev⟩ := ih t h
      refine ⟨h0 :: l1, hh, l2, by rw [heq, List.cons_append], hpar, hfut, ?_⟩
      intro h' hh' t' hpt
      rcases List.mem_cons.mp hh' with rfl | hmem
      · rw [hp] at hpt
        exact absurd hpt (by simp)
      · exact hprev h' hmem t' hpt
    | some t0 =>
      rw [hp] at h
      dsimp only at h
      cases hfut : dtLt today nowSec day t0 with
      | true =>
        rw [hfut] at h
        simp only [if_pos, Option.some.injEq] at h
        subst h
        exact ⟨[], h0, rest, rfl, hp, hfut, by simp⟩
      | false =>
        rw [hfut] at h
        simp only [Bool.false_eq_true, if_false] at h
        obtain ⟨l1, hh, l2, heq, hpar, hfut2, hprev⟩ := ih t h
        refine ⟨h0 :: l1, hh, l2, by rw [heq, List.cons_append], hpar, hfut2, ?_⟩
        intro h' hh' t' hpt
        rcases List.mem_cons.mp hh' with rfl | hmem
        · rw [hp] at hpt
          obtain rfl := Option.some.inj hpt
          exact hfut
        · exact hprev h' hmem t' hpt

/-- C8 (amended): once the candidate day has been advanced to a month with
configured hours, `get_next_watering_date` returns the FIRST hour in the
configured list order (of the first month found with hours, scanning from
the current month) whose time on that day is still in the future — not
necessarily the chronologically earliest such hour — and when no listed hour
is in the future it returns the first listed hour on the following day. -/
theorem C8_next_watering_selection (schedule : List (Option MonthConfig)) (today : Date)
    (nowSec : ℕ) (hasRained willRain isRaining : Bool) (lastRain lastSprinkle : Date)
    (mc : MonthConfig) (day : Date)
    (hne : schedule ≠ [])
    (hmc : findMonthWithHours schedule (today.month - 1) = some mc)
    (hadv : advanceToMonthWithHours schedule 400
        (candidate_watering_day today mc.intervalDays hasRained willRain isRaining lastRain
          lastSprinkle) = some day) :
    (hoursOfMonth schedule day.month ≠ [] ∧
      ∃ k, day = addDays (candidate_watering_day today mc.intervalDays hasRained willRain
          isRaining lastRain lastSprinkle) k ∧
        ∀ j < k, hoursOfMonth schedule (addDays (candidate_watering_day today
            mc.intervalDays hasRained willRain isRaining lastRain lastSprinkle) j).month
          = []) ∧
    (∀ t, findFutureHour today nowSec day mc.hours = some t →
      get_next_watering_date schedule today nowSec hasRained willRain isRaining lastRain
          lastSprinkle = .ok (some (day, t)) ∧
      ∃ l1 h l2, mc.hours = l1 ++ h :: l2 ∧ parse_time_string h = some t ∧
        dtLt today nowSec day t = true ∧
        ∀ h' ∈ l1, ∀ t', parse_time_string h' = some t' →
          dtLt today nowSec day t' = false) ∧
    (findFutureHour today nowSec day mc.hours = none →
      ∀ h0 rest t0, mc.hours = h0 :: rest → parse_time_string h0 = some t0 →
        get_next_watering_date schedule today nowSec hasRained willRain isRaining lastRain
            lastSprinkle = .ok (some (nextDay day, t0))) := by
  refine ⟨advanceToMonthWithHours_spec schedule 400 _ day hadv, ?_, ?_⟩
  · intro t hft
    refine ⟨?_, findFutureHour_spec today nowSec day mc.hours t hft⟩
    simp only [get_next_watering_date, if_neg hne, hmc, hadv, hft]
  · intro hnone h0 rest t0 hhrs hp
    simp only [get_next_watering_date, if_neg hne, hmc, hadv, hnone, hhrs, hp]
    rw [← hhrs, hnone]

/-- C8 counterexample: with January's hours configured as
["20:00", "06:00"] and the current time 05:00 on 2024-01-10,
`get_next_watering_date` returns the 20:00 slot of that day although the
configured 06:00 slot on the same day is also still in the future and
chronologically earlier. -/
theorem C8_list_order_counterexample :
    get_next_watering_date unorderedSchedule ⟨2024, 1, 10⟩ 18000 false false false
        ⟨2024, 1, 1⟩ ⟨2024, 1, 1⟩ = .ok (some (⟨2024, 1, 10⟩, 72000)) ∧
    hoursOfMonth unorderedSchedule 1 = ["20:00", "06:00"] ∧
    parse_time_string "06:00" = some 21600 ∧
    dtLt ⟨2024, 1, 10⟩ 18000 ⟨2024, 1, 10⟩ 21600 = true ∧
    21600 < 72000 := by
  exact ⟨rfl, rfl, rfl, rfl, by norm_num⟩

/-- Witness for C8 on the unordered January schedule. -/
theorem C8_next_watering_selection_witness :
    (unorderedSchedule ≠ []) ∧
    findMonthWithHours unorderedSchedule 0 = some ⟨0, ["20:00", "06:00"], [(1, 10)]⟩ ∧
    advanceToMonthWithHours unorderedSchedule 400
        (candidate_watering_day ⟨2024, 1, 10⟩ 0 false false false ⟨2024, 1, 1⟩
          ⟨2024, 1, 1⟩) = some ⟨2024, 1, 10⟩ ∧
    (findFutureHour ⟨2024, 1, 10⟩ 18000 ⟨2024, 1, 10⟩ ["20:00", "06:00"] = some 72000 ∧
      get_next_watering_date unorderedSchedule ⟨2024, 1, 10⟩ 18000 false false false
          ⟨2024, 1, 1⟩ ⟨2024, 1, 1⟩ = .ok (some (⟨2024, 1, 10⟩, 72000))) := by
  have h := C8_next_watering_selection unorderedSchedule ⟨2024, 1, 10⟩ 18000 false false
    false ⟨2024, 1, 1⟩ ⟨2024, 1, 1⟩ ⟨0, ["20:00", "06:00"], [(1, 10)]⟩ ⟨2024, 1, 10⟩
    (by simp [unorderedSchedule]) rfl rfl
  exact ⟨by simp [unorderedSchedule], rfl, rfl, rfl, (h.2.1 72000 rfl).1⟩

end SmartWater
